import Mathlib

/-!
Verification of the normalization layer of `django_backend/api/yf_fetch.py`.

The Python module fetches provider-native tabular results (pandas DataFrames,
dicts, lists) for a stock ticker and reshapes them into JSON-serializable
structures.  The fetch itself (network I/O through the `yfinance` library) is
an external collaborator; this development shallowly embeds the pure
reshaping code that runs on the fetched values.

Modelling conventions:
- Python dicts are association lists in insertion order (Python 3.7+ dicts
  preserve insertion order); keys are assumed distinct as they come from
  DataFrame columns / index labels.
- Python floats are modelled by `Rat` for finite values plus explicit
  `nan` / `inf` / `ninf` constructors, since the code branches on those.
- `datetime.datetime` / `pd.Timestamp` values are modelled by `Timestamp`
  (whole seconds, no timezone, no sub-second part - the normalization code
  never inspects sub-second fields and `str` / `strftime` agree on whole
  seconds); `datetime.date` values by `DateOnly`.
- `str(x)` for the value shapes reached by the code is modelled by the
  `py_str_*` functions below; the decimal rendering of a finite float is
  modelled up to the rational's decimal form, which no claim depends on.
-/

/-- Zero-pad a natural number to two digits, as `strftime` field formatting
does for month, day, hour, minute and second. -/
def pad2 (n : Nat) : String :=
  if n < 10 then "0" ++ toString n else toString n

/-- Zero-pad a natural number to four digits, as `strftime` `%Y` does. -/
def pad4 (n : Nat) : String :=
  if n < 10 then "000" ++ toString n
  else if n < 100 then "00" ++ toString n
  else if n < 1000 then "0" ++ toString n
  else toString n

/-- A calendar date, modelling `datetime.date`. -/
structure DateOnly where
  year : Nat
  month : Nat
  day : Nat
deriving DecidableEq

/-- A date-time with whole-second precision, modelling `datetime.datetime`
and `pd.Timestamp` as they occur in the normalized data. -/
structure Timestamp where
  year : Nat
  month : Nat
  day : Nat
  hour : Nat
  minute : Nat
  second : Nat
deriving DecidableEq

/-- `timestamp.strftime("%Y-%m-%d %H:%M:%S")`, the fixed format used by
`convert_timestamp_to_string` in the source. -/
def ts_strftime (t : Timestamp) : String :=
  pad4 t.year ++ "-" ++ pad2 t.month ++ "-" ++ pad2 t.day ++ " " ++
  pad2 t.hour ++ ":" ++ pad2 t.minute ++ ":" ++ pad2 t.second

/-- `date.isoformat()`: the ISO-8601 calendar-date string `YYYY-MM-DD`. -/
def iso_date (d : DateOnly) : String :=
  pad4 d.year ++ "-" ++ pad2 d.month ++ "-" ++ pad2 d.day

/-- `datetime.isoformat()`: `YYYY-MM-DDTHH:MM:SS` (no microseconds when the
sub-second part is zero). -/
def datetime_isoformat (t : Timestamp) : String :=
  pad4 t.year ++ "-" ++ pad2 t.month ++ "-" ++ pad2 t.day ++ "T" ++
  pad2 t.hour ++ ":" ++ pad2 t.minute ++ ":" ++ pad2 t.second

/-- A Python scalar as it occurs in a fetched table cell: `None`, a float
(finite, NaN, or signed infinity), a string, a bool, or a datetime. -/
inductive Scalar where
  | noneV
  | nan
  | inf
  | ninf
  | num (q : Rat)
  | intV (n : Int)
  | strV (s : String)
  | boolV (b : Bool)
  | datetime (t : Timestamp)
deriving DecidableEq

/-- `pd.isna(x)` on a scalar: true exactly for `None` and float NaN. -/
def pd_isna : Scalar → Bool
  | .noneV => true
  | .nan => true
  | _ => false

/-- Python membership test `x in [float('inf'), float('-inf')]`: equality
against the two signed infinities (NaN compares unequal to everything,
finite numbers and non-numbers compare unequal to infinities). -/
def in_inf_list : Scalar → Bool
  | .inf => true
  | .ninf => true
  | _ => false

/-- The per-cell rule of the table normalizations:
`None if pd.isna(sub_value) or sub_value in [float('inf'), float('-inf')]
else sub_value`. -/
def clean_scalar (v : Scalar) : Scalar :=
  if pd_isna v || in_inf_list v then .noneV else v

/-- Whether a scalar is a Python string. -/
def Scalar.isStrVal : Scalar → Bool
  | .strV _ => true
  | _ => false

/-- A dict key as it occurs in the fetched tables: a string label, an
integer label, a timestamp column (balance-sheet periods), or a plain
date. -/
inductive Key where
  | strK (s : String)
  | intK (n : Int)
  | tsK (t : Timestamp)
  | dateK (d : DateOnly)
deriving DecidableEq

/-- `str(key)` on a dict key: identity on strings, decimal digits on
integers, `"YYYY-MM-DD HH:MM:SS"` on a whole-second `pd.Timestamp`
(its `__str__`), `"YYYY-MM-DD"` on a `date`. -/
def py_str_key : Key → String
  | .strK s => s
  | .intK n => toString n
  | .tsK t => ts_strftime t
  | .dateK d => iso_date d

/-- Whether a key is a Python string. -/
def Key.isStr : Key → Bool
  | .strK _ => true
  | _ => false

/-- A two-level table as produced by `DataFrame.to_dict()`: outer key =
column label, inner key = row label, cell = scalar. -/
abbrev Table := List (Key × List (Key × Scalar))

/-- `get_balance_sheet_as_json`, applied to the fetched balance sheet in
its `to_dict()` form: stringify each outer key with `str`, keep each inner
key as is, and map each cell through the NaN/±inf-to-`None` rule. -/
def get_balance_sheet_as_json (bs : Table) : List (String × List (Key × Scalar)) :=
  bs.map (fun kv => (py_str_key kv.1, kv.2.map (fun p => (p.1, clean_scalar p.2))))

/-- `get_cash_flow_as_json`, applied to the fetched cash-flow statement in
its `to_dict()` form: the comprehension is duplicated verbatim from
`get_balance_sheet_as_json` in the source. -/
def get_cash_flow_as_json (cf : Table) : List (String × List (Key × Scalar)) :=
  cf.map (fun kv => (py_str_key kv.1, kv.2.map (fun p => (p.1, clean_scalar p.2))))

/-- Claim-side predicate: the scalar is a missing value (`None` or NaN) or
one of the two signed infinities. -/
def missing_or_nonfinite : Scalar → Bool
  | .noneV => true
  | .nan => true
  | .inf => true
  | .ninf => true
  | _ => false

/-- `repr` of a finite Python float, modelled up to the decimal rendering of
the rational: an integral float prints with a trailing `.0`. -/
def py_float_repr (q : Rat) : String :=
  if q.den = 1 then toString q.num ++ ".0" else toString q

/-- `str(x)` on a scalar: identity on strings, `True` / `False` on bools,
`None` on `None`, `nan` / `inf` / `-inf` on the float specials, and on a
`datetime` its `__str__`, which is `isoformat(sep=' ')`, i.e. the same
`YYYY-MM-DD HH:MM:SS` text as the `strftime` format above. -/
def py_str_scalar : Scalar → String
  | .noneV => "None"
  | .nan => "nan"
  | .inf => "inf"
  | .ninf => "-inf"
  | .num q => py_float_repr q
  | .intV n => toString n
  | .strV s => s
  | .boolV true => "True"
  | .boolV false => "False"
  | .datetime t => ts_strftime t

/-- `repr(x)` on a scalar, as used inside the `str` of a containing dict:
strings gain quotes, a datetime prints as a constructor call; other scalars
print as in `py_str_scalar`. -/
def py_repr_scalar : Scalar → String
  | .strV s => "'" ++ s ++ "'"
  | .datetime t =>
      "datetime.datetime(" ++ toString t.year ++ ", " ++ toString t.month ++ ", " ++
      toString t.day ++ ", " ++ toString t.hour ++ ", " ++ toString t.minute ++ ", " ++
      toString t.second ++ ")"
  | v => py_str_scalar v

/-- `repr(k)` on a dict key. -/
def py_repr_key : Key → String
  | .strK s => "'" ++ s ++ "'"
  | .intK n => toString n
  | .tsK t => "Timestamp('" ++ ts_strftime t ++ "')"
  | .dateK d => "datetime.date(" ++ toString d.year ++ ", " ++ toString d.month ++ ", " ++
      toString d.day ++ ")"

/-- A per-key value of a fetched sub-report dict: for a DataFrame's
`to_dict()` the value is itself a dict (row label to scalar); for a plain
dict attribute such as `analyst_price_targets` it is a scalar. -/
inductive PyCell where
  | scal (v : Scalar)
  | cdict (kvs : List (Key × Scalar))
deriving DecidableEq

/-- `str(x)` on a per-key value: Python's `str` of a dict is its `repr`,
`\x7b'k1': v1, 'k2': v2\x7d` with `repr` of keys and values. -/
def py_str_cell : PyCell → String
  | .scal v => py_str_scalar v
  | .cdict kvs =>
      "\x7b" ++
      String.intercalate ", " (kvs.map (fun p => py_repr_key p.1 ++ ": " ++ py_repr_scalar p.2)) ++
      "\x7d"

/-- `convert_timestamp_to_string`:
`timestamp.strftime("%Y-%m-%d %H:%M:%S") if isinstance(timestamp,
(datetime, pd.Timestamp)) else str(timestamp)`. -/
def convert_timestamp_to_string : PyCell → String
  | .scal (.datetime t) => ts_strftime t
  | v => py_str_cell v

/-- One flat record of the reset-index historical-price DataFrame: column
name to scalar. -/
abbrev HistRecord := List (String × Scalar)

/-- The per-field action of `get_historical_data_as_json`: a column whose
dtype is datetime64 (`pd.api.types.is_datetime64_any_dtype`) has
`convert_timestamp_to_string` applied to each of its elements; other
columns are untouched. -/
def hist_convert_field (is_dt_col : String → Bool) (p : String × Scalar) : String × Scalar :=
  if is_dt_col p.1 then (p.1, .strV (convert_timestamp_to_string (.scal p.2))) else p

/-- Whether `json.dumps` (no custom encoder) accepts the scalar: raw
`datetime` / `date` objects are rejected with a `TypeError`; note Python's
non-strict JSON writes `NaN` / `Infinity` literals for the float specials
and reads them back, so those round-trip. -/
def json_serializable : Scalar → Bool
  | .datetime _ => false
  | _ => true

/-- `json.loads(json.dumps(records))` on the list of flat records: the
identity when every value is serializable (ints, finite and non-finite
floats, strings, bools and `None` all round-trip through Python's
non-strict JSON), a raised `TypeError` otherwise. -/
def json_roundtrip_records (rs : List HistRecord) : Except String (List HistRecord) :=
  if rs.all (fun r => r.all (fun p => json_serializable p.2)) then .ok rs
  else .error "Object of type datetime is not JSON serializable"

/-- `get_historical_data_as_json`, applied to the fetched history
DataFrame after `reset_index()`, in record orientation (`to_dict` with
`orient="records"` lists the rows in row order), together with the
column-dtype predicate: convert the elements of every datetime column to
strings, then round-trip the record list through `json.dumps` /
`json.loads`. -/
def get_historical_data_as_json (df : List HistRecord) (is_dt_col : String → Bool) :
    Except String (List HistRecord) :=
  json_roundtrip_records (df.map (fun r => r.map (hist_convert_field is_dt_col)))

/-- `get_sector_and_industry_as_json`, applied to the fetched `info` dict:
`info.get` with the default `"N/A"` on exactly the two keys. -/
def get_sector_and_industry_as_json (info : List (String × Scalar)) : List (String × Scalar) :=
  [("sector", (info.lookup "sector").getD (.strV "N/A")),
   ("industry", (info.lookup "industry").getD (.strV "N/A"))]

/-- A JSON value, the result of `json.loads`. -/
inductive Json where
  | null
  | boolJ (b : Bool)
  | num (q : Rat)
  | strJ (s : String)
  | arr (xs : List Json)
  | obj (kvs : List (String × Json))

/-- JSON string escaping for one character: `json.dumps` escapes the
backslash and the double quote (control characters do not occur in the
strings this module emits). -/
def json_escape_char (c : Char) : String :=
  if c = '\\' then "\\\\" else if c = '"' then "\\\"" else String.singleton c

/-- JSON string escaping. -/
def json_escape (s : String) : String :=
  String.join (s.toList.map json_escape_char)

/-- Decimal rendering of a JSON number by `json.dumps`. -/
def json_num_repr (q : Rat) : String :=
  if q.den = 1 then toString q.num else toString q

mutual

/-- `json.dumps` with its default separators `", "` and `": "`. -/
def json_dumps : Json → String
  | .null => "null"
  | .boolJ true => "true"
  | .boolJ false => "false"
  | .num q => json_num_repr q
  | .strJ s => "\"" ++ json_escape s ++ "\""
  | .arr xs => "[" ++ String.intercalate ", " (json_dumps_list xs) ++ "]"
  | .obj kvs => "\x7b" ++ String.intercalate ", " (json_dumps_entries kvs) ++ "\x7d"

/-- The dumped elements of a JSON array. -/
def json_dumps_list : List Json → List String
  | [] => []
  | x :: xs => json_dumps x :: json_dumps_list xs

/-- The dumped `"key": value` entries of a JSON object. -/
def json_dumps_entries : List (String × Json) → List String
  | [] => []
  | (k, v) :: kvs => ("\"" ++ json_escape k ++ "\": " ++ json_dumps v) :: json_dumps_entries kvs

end

/-- A Python value as fetched for the calendar / news categories: nested
dicts and lists whose leaves are strings, numbers, bools, `None`, plain
`date`s or `datetime`s. -/
inductive PyData where
  | noneD
  | boolD (b : Bool)
  | numD (q : Rat)
  | strD (s : String)
  | dateD (d : DateOnly)
  | datetimeD (t : Timestamp)
  | listD (xs : List PyData)
  | dictD (kvs : List (String × PyData))

mutual

/-- `json.loads(json.dumps(x, cls=DateEncoder))` on a fetched structure:
the standard encoding of dicts, lists and scalar leaves, except that
`DateEncoder.default` turns any `date` instance into its `isoformat()`
string - `YYYY-MM-DD` for a plain `date`, `YYYY-MM-DDTHH:MM:SS` for a
`datetime` (which is a `date` instance).  `loads` of the dumped text gives
back exactly this JSON value. -/
def encodeDE : PyData → Json
  | .noneD => .null
  | .boolD b => .boolJ b
  | .numD q => .num q
  | .strD s => .strJ s
  | .dateD d => .strJ (iso_date d)
  | .datetimeD t => .strJ (datetime_isoformat t)
  | .listD xs => .arr (encodeDE_list xs)
  | .dictD kvs => .obj (encodeDE_entries kvs)

/-- Encoding of the elements of a fetched list. -/
def encodeDE_list : List PyData → List Json
  | [] => []
  | x :: xs => encodeDE x :: encodeDE_list xs

/-- Encoding of the entries of a fetched dict. -/
def encodeDE_entries : List (String × PyData) → List (String × Json)
  | [] => []
  | (k, v) :: kvs => (k, encodeDE v) :: encodeDE_entries kvs

end

/-- The value returned by `get_cal_as_json` / `get_news_as_json`: on the
absent branch a raw `json.dumps` text (a Python `str`), on the present
branch the `json.loads` result (a parsed structure). -/
inductive CalResult where
  | jsonText (s : String)
  | parsed (j : Json)

/-- Whether the result is the serialized-text shape. -/
def CalResult.isText : CalResult → Bool
  | .jsonText _ => true
  | .parsed _ => false

/-- `get_cal_as_json`, applied to the fetched `calendar` attribute
(`None` when absent): absent gives
`json.dumps(\x7b"error": "No calendar data available"\x7d)` - a string -
and present gives `json.loads(json.dumps(cal, cls=DateEncoder))`. -/
def get_cal_as_json (cal : Option PyData) : CalResult :=
  match cal with
  | none => .jsonText (json_dumps (.obj [("error", .strJ "No calendar data available")]))
  | some c => .parsed (encodeDE c)

/-- `get_news_as_json`, applied to the fetched `news` attribute: same
structure as `get_cal_as_json`, including the (copy-pasted) calendar
wording of the absent-case message. -/
def get_news_as_json (news : Option PyData) : CalResult :=
  match news with
  | none => .jsonText (json_dumps (.obj [("error", .strJ "No calendar data available")]))
  | some n => .parsed (encodeDE n)

/-- A fetched analysis sub-report in `items()` form: for a DataFrame
attribute this is `to_dict().items()` (column label to inner row dict),
for the plain-dict attribute `analyst_price_targets` it is `items()`
(label to scalar). -/
abbrev SubTable := List (Key × PyCell)

/-- One entry value of the `analysis_data` dict literal:
`\x7bstr(key): convert_timestamp_to_string(value) for key, value in
attr...items()\x7d if attr is not None else "<msg>"`. -/
def sub_entry (attr : Option SubTable) (msg : String) : Json :=
  match attr with
  | some t => .obj (t.map (fun p => (py_str_key p.1, .strJ (convert_timestamp_to_string p.2))))
  | none => .strJ msg

/-- The `analysis_data` dict literal of `get_analysis_data_as_json`, as a
function of the 17 fetched attribute values, in source order and with the
source's key spellings (note `"insider-purchases"` with a hyphen) and
message strings (note `"No insider roast holders data available"`).
`json.dumps(analysis_data, cls=DateEncoder)` followed by `json.loads`
is the identity on this value: every leaf is already a string. -/
def assemble_analysis
    (v1 v2 v3 v4 v5 v6 v7 v8 v9 v10 v11 v12 v13 v14 v15 v16 v17 : Option SubTable) : Json :=
  .obj [
    ("earnings_estimate", sub_entry v1 "No earnings estimate data available"),
    ("revenue_estimate", sub_entry v2 "No revenue estimate data available"),
    ("earnings_history", sub_entry v3 "No earnings history data available"),
    ("eps_trend", sub_entry v4 "No EPS trend data available"),
    ("eps_revisions", sub_entry v5 "No EPS revisions data available"),
    ("growth_estimates", sub_entry v6 "No growth estimate data available"),
    ("recommendations", sub_entry v7 "No recommendations data available"),
    ("recommendations_summary", sub_entry v8 "No recommendations summary data available"),
    ("upgrades_downgrades", sub_entry v9 "No upgrades/downgrades data available"),
    ("sustainability", sub_entry v10 "No sustainability data available"),
    ("analyst_price_targets", sub_entry v11 "No analyst price targets data available"),
    ("insider-purchases", sub_entry v12 "No insider purchases data available"),
    ("insider_transactions", sub_entry v13 "No insider transactions data available"),
    ("insider_roster_holders", sub_entry v14 "No insider roast holders data available"),
    ("major_holders", sub_entry v15 "No major holders data available"),
    ("institutional_holders", sub_entry v16 "No institutional holders data available"),
    ("mutualfund_holders", sub_entry v17 "No mutual fund holders data available")]

/-- The upstream side of `get_analysis_data_as_json` for one ticker: each
analysis attribute access either yields the attribute value (`None` when
the provider has no such report) or raises, modelled by `Except` carrying
`str(e)` of the raised exception. -/
structure TickerAnalysis where
  earnings_estimate : Except String (Option SubTable)
  revenue_estimate : Except String (Option SubTable)
  earnings_history : Except String (Option SubTable)
  eps_trend : Except String (Option SubTable)
  eps_revisions : Except String (Option SubTable)
  growth_estimates : Except String (Option SubTable)
  recommendations : Except String (Option SubTable)
  recommendations_summary : Except String (Option SubTable)
  upgrades_downgrades : Except String (Option SubTable)
  sustainability : Except String (Option SubTable)
  analyst_price_targets : Except String (Option SubTable)
  insider_purchases : Except String (Option SubTable)
  insider_transactions : Except String (Option SubTable)
  insider_roster_holders : Except String (Option SubTable)
  major_holders : Except String (Option SubTable)
  institutional_holders : Except String (Option SubTable)
  mutualfund_holders : Except String (Option SubTable)

/-- The body of the `try` block of `get_analysis_data_as_json`: evaluate
the 17 attribute accesses in the source order of the dict literal - the
first raise aborts the whole construction - and assemble the
`analysis_data` dict. -/
def build_analysis_data (d : TickerAnalysis) : Except String Json :=
  d.earnings_estimate.bind (fun v1 =>
  d.revenue_estimate.bind (fun v2 =>
  d.earnings_history.bind (fun v3 =>
  d.eps_trend.bind (fun v4 =>
  d.eps_revisions.bind (fun v5 =>
  d.growth_estimates.bind (fun v6 =>
  d.recommendations.bind (fun v7 =>
  d.recommendations_summary.bind (fun v8 =>
  d.upgrades_downgrades.bind (fun v9 =>
  d.sustainability.bind (fun v10 =>
  d.analyst_price_targets.bind (fun v11 =>
  d.insider_purchases.bind (fun v12 =>
  d.insider_transactions.bind (fun v13 =>
  d.insider_roster_holders.bind (fun v14 =>
  d.major_holders.bind (fun v15 =>
  d.institutional_holders.bind (fun v16 =>
  d.mutualfund_holders.bind (fun v17 =>
  .ok (assemble_analysis v1 v2 v3 v4 v5 v6 v7 v8 v9 v10 v11 v12 v13 v14 v15 v16 v17
  ))))))))))))))))))

/-- `get_analysis_data_as_json`: `result = \x7b\x7d`, then under `try` the
bundle is built and stored as `result[ticker_symbol]`; on any exception
`result[ticker_symbol] = \x7b"error": str(e)\x7d`.  Either way the
returned mapping has the ticker as its only key. -/
def get_analysis_data_as_json (ticker_symbol : String) (d : TickerAnalysis) : Json :=
  match build_analysis_data d with
  | .ok j => .obj [(ticker_symbol, j)]
  | .error e => .obj [(ticker_symbol, .obj [("error", .strJ e)])]

/-- The entry list of a JSON object (empty for non-objects). -/
def Json.objEntries : Json → List (String × Json)
  | .obj kvs => kvs
  | _ => []

/-- The key list of a JSON object. -/
def Json.objKeys (j : Json) : List String :=
  j.objEntries.map Prod.fst

/-- A `TickerAnalysis` where every attribute access succeeds with `None`:
the provider has no analysis data at all for the ticker. -/
def allAbsentAnalysis : TickerAnalysis :=
  ⟨.ok none, .ok none, .ok none, .ok none, .ok none, .ok none, .ok none, .ok none, .ok none,
   .ok none, .ok none, .ok none, .ok none, .ok none, .ok none, .ok none, .ok none⟩

/-- A `TickerAnalysis` whose very first attribute access raises. -/
def errorFirstAnalysis : TickerAnalysis :=
  { allAbsentAnalysis with earnings_estimate := .error "boom" }

/-- A concrete fetched earnings-estimate table: one column `"0q"` whose
inner dict maps the row label `"avg"` to `2.5`. -/
def sampleSubTable : SubTable :=
  [(.strK "0q", .cdict [(.strK "avg", .num (5 / 2))])]

/-- A `TickerAnalysis` where the earnings-estimate report is present and
every other report is absent. -/
def onePresentAnalysis : TickerAnalysis :=
  { allAbsentAnalysis with earnings_estimate := .ok (some sampleSubTable) }

/-- The source's per-cell condition `pd.isna(v) or v in [inf, -inf]`
coincides with the claim-side missing-or-non-finite predicate. -/
theorem clean_scalar_cases (v : Scalar) :
    clean_scalar v = if missing_or_nonfinite v then Scalar.noneV else v := by
  cases v <;> rfl

/-- The cash-flow normalization is the verbatim duplicate of the
balance-sheet normalization. -/
theorem cashflow_eq_balancesheet (t : Table) :
    get_cash_flow_as_json t = get_balance_sheet_as_json t := rfl

/-- Every `analysis_data` entry value is either the fixed absent-report
message string or an object all of whose values are strings. -/
theorem sub_entry_values (v : Option SubTable) (msg : String) :
    (∃ s, sub_entry v msg = Json.strJ s) ∨
    (∃ kvs, sub_entry v msg = Json.obj kvs ∧ ∀ q ∈ kvs, ∃ s, q.2 = Json.strJ s) := by
  cases v with
  | none => exact .inl ⟨msg, rfl⟩
  | some t =>
      refine .inr ⟨_, rfl, ?_⟩
      intro q hq
      rcases List.mem_map.mp hq with ⟨p, _, he⟩
      exact ⟨convert_timestamp_to_string p.2, by rw [← he]⟩

/-- Inversion for a successful `Except.bind` step. -/
theorem except_bind_ok {α β : Type} (x : Except String α) (f : α → Except String β) (b : β)
    (h : x.bind f = .ok b) : ∃ a, x = .ok a ∧ f a = .ok b := by
  cases x with
  | error e => simp [Except.bind] at h
  | ok a => exact ⟨a, rfl, h⟩

/-- C1: in the table normalizations (`get_balance_sheet_as_json`, and the
identical `get_cash_flow_as_json`), every inner cell that is missing
(`None` / NaN) or equal to a signed infinity becomes `None`, and every
other scalar cell passes through unchanged; the per-cell rule is a total
function, so no individual missing or non-finite value raises. -/
theorem c1_table_nonfinite_to_null (bs : Table) (i j : Nat) (k : Key)
    (row : List (Key × Scalar)) (sk : Key) (sv : Scalar)
    (h1 : bs[i]? = some (k, row)) (h2 : row[j]? = some (sk, sv)) :
    (∃ row2, (get_balance_sheet_as_json bs)[i]? = some (py_str_key k, row2) ∧
      row2[j]? = some (sk, if missing_or_nonfinite sv then Scalar.noneV else sv)) ∧
    get_cash_flow_as_json bs = get_balance_sheet_as_json bs := by
  refine ⟨⟨row.map (fun p => (p.1, clean_scalar p.2)), ?_, ?_⟩,
    cashflow_eq_balancesheet bs⟩
  · unfold get_balance_sheet_as_json
    rw [List.getElem?_map, h1]
    rfl
  · rw [List.getElem?_map, h2]
    simp [clean_scalar_cases]

/-- C1 witness: a NaN cell of a concrete one-column table becomes `None`. -/
theorem c1_witness :
    (∃ row2,
      (get_balance_sheet_as_json [(Key.strK "c", [(Key.strK "r", Scalar.nan)])])[0]?
        = some (py_str_key (Key.strK "c"), row2) ∧
      row2[0]? = some (Key.strK "r",
        if missing_or_nonfinite Scalar.nan then Scalar.noneV else Scalar.nan)) ∧
    get_cash_flow_as_json [(Key.strK "c", [(Key.strK "r", Scalar.nan)])]
      = get_balance_sheet_as_json [(Key.strK "c", [(Key.strK "r", Scalar.nan)])] :=
  c1_table_nonfinite_to_null _ 0 0 _ _ _ _ rfl rfl

/-- C2: whenever the construction of the analysis bundle fails (any of the
attribute accesses raises), `get_analysis_data_as_json` returns exactly
the one-key mapping from the ticker to the error object, with no
sub-report keys present. -/
theorem c2_bundle_error_collapses (ticker e : String) (d : TickerAnalysis)
    (h : build_analysis_data d = .error e) :
    get_analysis_data_as_json ticker d = .obj [(ticker, .obj [("error", .strJ e)])] := by
  unfold get_analysis_data_as_json
  rw [h]

/-- C2 witness: a bundle whose first attribute access raises `"boom"`
collapses to the single error entry. -/
theorem c2_witness :
    get_analysis_data_as_json "TICK" errorFirstAnalysis
      = .obj [("TICK", .obj [("error", .strJ "boom")])] :=
  c2_bundle_error_collapses "TICK" "boom" errorFirstAnalysis rfl

/-- C3 counterexample: on a table with the integer inner key `5`, the
output of `get_balance_sheet_as_json` still contains the integer key - the
code stringifies only the outer keys, so it is false that every key of the
output is a string. -/
theorem c3_inner_key_not_stringified_cex :
    ((get_balance_sheet_as_json [(Key.strK "c", [(Key.intK 5, Scalar.num 1)])]).all
      (fun col => col.2.all (fun p => p.1.isStr))) = false := by decide

/-- C3 amended: the outer (column/period) keys are stringified with `str`,
while the inner (row-label) keys are passed through entirely unchanged,
whatever their underlying type; `get_cash_flow_as_json` behaves
identically. -/
theorem c3_outer_keys_stringified (bs : Table) (i : Nat) (k : Key)
    (row : List (Key × Scalar)) (h : bs[i]? = some (k, row)) :
    (∃ row2, (get_balance_sheet_as_json bs)[i]? = some (py_str_key k, row2) ∧
      row2.map Prod.fst = row.map Prod.fst) ∧
    (get_balance_sheet_as_json bs).map Prod.fst = bs.map (fun kv => py_str_key kv.1) ∧
    get_cash_flow_as_json bs = get_balance_sheet_as_json bs := by
  refine ⟨⟨row.map (fun p => (p.1, clean_scalar p.2)), ?_, ?_⟩, ?_,
    cashflow_eq_balancesheet bs⟩
  · unfold get_balance_sheet_as_json
    rw [List.getElem?_map, h]
    rfl
  · simp
  · unfold get_balance_sheet_as_json
    rw [List.map_map]
    rfl

/-- C3 witness: the concrete table with a timestamp outer key and an
integer inner key. -/
theorem c3_witness :
    (∃ row2,
      (get_balance_sheet_as_json
        [(Key.tsK ⟨2023, 12, 31, 0, 0, 0⟩, [(Key.intK 5, Scalar.num 1)])])[0]?
        = some (py_str_key (Key.tsK ⟨2023, 12, 31, 0, 0, 0⟩), row2) ∧
      row2.map Prod.fst = [(Key.intK 5, Scalar.num 1)].map Prod.fst) ∧
    (get_balance_sheet_as_json
        [(Key.tsK ⟨2023, 12, 31, 0, 0, 0⟩, [(Key.intK 5, Scalar.num 1)])]).map Prod.fst
      = [(Key.tsK ⟨2023, 12, 31, 0, 0, 0⟩, [(Key.intK 5, Scalar.num 1)])].map
          (fun kv => py_str_key kv.1) ∧
    get_cash_flow_as_json [(Key.tsK ⟨2023, 12, 31, 0, 0, 0⟩, [(Key.intK 5, Scalar.num 1)])]
      = get_balance_sheet_as_json
          [(Key.tsK ⟨2023, 12, 31, 0, 0, 0⟩, [(Key.intK 5, Scalar.num 1)])] :=
  c3_outer_keys_stringified _ 0 _ _ rfl

/-- C4 counterexample: on a table whose cell is the datetime
`2023-05-06 07:08:09`, `get_balance_sheet_as_json` leaves the cell as a
datetime object - it is not rendered as any string, contradicting the
claim that the table normalization renders date/time scalar values in the
`YYYY-MM-DD HH:MM:SS` format. -/
theorem c4_table_datetime_unchanged_cex :
    get_balance_sheet_as_json
        [(Key.strK "c", [(Key.strK "r", Scalar.datetime ⟨2023, 5, 6, 7, 8, 9⟩)])]
      = [("c", [(Key.strK "r", Scalar.datetime ⟨2023, 5, 6, 7, 8, 9⟩)])] ∧
    (Scalar.datetime ⟨2023, 5, 6, 7, 8, 9⟩).isStrVal = false := by decide

/-- C4 amended: the time-series normalization renders every value of a
datetime-typed column as the string `YYYY-MM-DD HH:MM:SS`; the
calendar/news normalization renders a plain date as its ISO-8601 string
`YYYY-MM-DD`; the table normalizations leave date/time cell values
entirely unchanged (their date-typed outer keys are stringified in the
`YYYY-MM-DD HH:MM:SS` / `YYYY-MM-DD` form by `str`). -/
theorem c4_datetime_rendering (flag : String → Bool) (c : String) (t : Timestamp)
    (d : DateOnly) (bs : Table) (i j : Nat) (k sk : Key) (row : List (Key × Scalar))
    (t2 : Timestamp) (hflag : flag c = true)
    (h1 : bs[i]? = some (k, row)) (h2 : row[j]? = some (sk, Scalar.datetime t2)) :
    hist_convert_field flag (c, .datetime t) = (c, .strV (ts_strftime t)) ∧
    ts_strftime ⟨2024, 3, 7, 9, 5, 2⟩ = "2024-03-07 09:05:02" ∧
    encodeDE (.dateD d) = .strJ (iso_date d) ∧
    iso_date ⟨2024, 3, 7⟩ = "2024-03-07" ∧
    (∃ row2, (get_balance_sheet_as_json bs)[i]? = some (py_str_key k, row2) ∧
      row2[j]? = some (sk, Scalar.datetime t2)) := by
  refine ⟨?_, rfl, rfl, rfl,
    ⟨row.map (fun p => (p.1, clean_scalar p.2)), ?_, ?_⟩⟩
  · unfold hist_convert_field
    rw [hflag]
    rfl
  · unfold get_balance_sheet_as_json
    rw [List.getElem?_map, h1]
    rfl
  · rw [List.getElem?_map, h2]
    rfl

/-- C4 witness: concrete instances of the three rendering facts. -/
theorem c4_witness :
    hist_convert_field (fun col => col == "Date") ("Date", .datetime ⟨2024, 1, 2, 3, 4, 5⟩)
      = ("Date", .strV (ts_strftime ⟨2024, 1, 2, 3, 4, 5⟩)) ∧
    ts_strftime ⟨2024, 3, 7, 9, 5, 2⟩ = "2024-03-07 09:05:02" ∧
    encodeDE (.dateD ⟨2025, 11, 30⟩) = .strJ (iso_date ⟨2025, 11, 30⟩) ∧
    iso_date ⟨2024, 3, 7⟩ = "2024-03-07" ∧
    (∃ row2,
      (get_balance_sheet_as_json
        [(Key.strK "c", [(Key.strK "r", Scalar.datetime ⟨2023, 5, 6, 7, 8, 9⟩)])])[0]?
        = some (py_str_key (Key.strK "c"), row2) ∧
      row2[0]? = some (Key.strK "r", Scalar.datetime ⟨2023, 5, 6, 7, 8, 9⟩)) :=
  c4_datetime_rendering (fun col => col == "Date") "Date" ⟨2024, 1, 2, 3, 4, 5⟩
    ⟨2025, 11, 30⟩ _ 0 0 _ _ _ ⟨2023, 5, 6, 7, 8, 9⟩ rfl rfl rfl

/-- C5: the time-series normalization preserves input record order
exactly - when it returns a list, that list has the same length as the
input and its i-th record is the field-wise normalization of the i-th
input record, for every i. -/
theorem c5_order_preserved (df : List HistRecord) (flag : String → Bool)
    (out : List HistRecord) (h : get_historical_data_as_json df flag = .ok out) (i : Nat) :
    out.length = df.length ∧
    out[i]? = df[i]?.map (fun r => r.map (hist_convert_field flag)) := by
  unfold get_historical_data_as_json json_roundtrip_records at h
  split at h
  · injection h with h2
    subst h2
    exact ⟨List.length_map _ _, List.getElem?_map _ _ _⟩
  · cases h

/-- C5 witness: three price rows dated day 1, 2, 3 come out in that
order. -/
theorem c5_witness :
    [[("Date", Scalar.strV "2024-01-01 00:00:00")],
     [("Date", Scalar.strV "2024-01-02 00:00:00")],
     [("Date", Scalar.strV "2024-01-03 00:00:00")]].length
      = [[("Date", Scalar.datetime ⟨2024, 1, 1, 0, 0, 0⟩)],
         [("Date", Scalar.datetime ⟨2024, 1, 2, 0, 0, 0⟩)],
         [("Date", Scalar.datetime ⟨2024, 1, 3, 0, 0, 0⟩)]].length ∧
    [[("Date", Scalar.strV "2024-01-01 00:00:00")],
     [("Date", Scalar.strV "2024-01-02 00:00:00")],
     [("Date", Scalar.strV "2024-01-03 00:00:00")]][1]?
      = [[("Date", Scalar.datetime ⟨2024, 1, 1, 0, 0, 0⟩)],
         [("Date", Scalar.datetime ⟨2024, 1, 2, 0, 0, 0⟩)],
         [("Date", Scalar.datetime ⟨2024, 1, 3, 0, 0, 0⟩)]][1]?.map
          (fun r => r.map (hist_convert_field (fun col => col == "Date"))) :=
  c5_order_preserved
    [[("Date", Scalar.datetime ⟨2024, 1, 1, 0, 0, 0⟩)],
     [("Date", Scalar.datetime ⟨2024, 1, 2, 0, 0, 0⟩)],
     [("Date", Scalar.datetime ⟨2024, 1, 3, 0, 0, 0⟩)]]
    (fun col => col == "Date") _ rfl 1

/-- C6: the classification normalization always returns a mapping with
exactly the keys `"sector"` and `"industry"`; an absent field gets the
literal string `"N/A"` (not `None`, not an error); on the empty mapping
both fields are `"N/A"`. -/
theorem c6_classification (info : List (String × Scalar)) :
    ((get_sector_and_industry_as_json info).map Prod.fst = ["sector", "industry"]) ∧
    (info.lookup "sector" = none →
      (get_sector_and_industry_as_json info).lookup "sector" = some (.strV "N/A")) ∧
    (info.lookup "industry" = none →
      (get_sector_and_industry_as_json info).lookup "industry" = some (.strV "N/A")) ∧
    get_sector_and_industry_as_json []
      = [("sector", .strV "N/A"), ("industry", .strV "N/A")] := by
  refine ⟨rfl, ?_, ?_, rfl⟩
  · intro h
    unfold get_sector_and_industry_as_json
    rw [h]
    rfl
  · intro h
    unfold get_sector_and_industry_as_json
    rw [h]
    rfl

/-- C6 witness: a metadata mapping carrying neither field. -/
theorem c6_witness :
    ((get_sector_and_industry_as_json [("city", .strV "Cupertino")]).map Prod.fst
      = ["sector", "industry"]) ∧
    (get_sector_and_industry_as_json [("city", .strV "Cupertino")]).lookup "sector"
      = some (.strV "N/A") ∧
    (get_sector_and_industry_as_json [("city", .strV "Cupertino")]).lookup "industry"
      = some (.strV "N/A") ∧
    get_sector_and_industry_as_json []
      = [("sector", .strV "N/A"), ("industry", .strV "N/A")] :=
  ⟨(c6_classification [("city", .strV "Cupertino")]).1,
   (c6_classification [("city", .strV "Cupertino")]).2.1 rfl,
   (c6_classification [("city", .strV "Cupertino")]).2.2.1 rfl,
   (c6_classification [("city", .strV "Cupertino")]).2.2.2⟩

/-- C7: on an absent calendar, `get_cal_as_json` returns the serialized
error object whose message is exactly `"No calendar data available"`, and
`get_news_as_json` on absent news returns the same serialized object with
the same (calendar-worded) message; both branches are plain returns, not
raises. -/
theorem c7_absent_message_literal :
    get_cal_as_json none
      = .jsonText (json_dumps (.obj [("error", .strJ "No calendar data available")])) ∧
    get_news_as_json none
      = .jsonText (json_dumps (.obj [("error", .strJ "No calendar data available")])) ∧
    json_dumps (.obj [("error", .strJ "No calendar data available")])
      = "\x7b\"error\": \"No calendar data available\"\x7d" :=
  ⟨rfl, rfl, rfl⟩

/-- C8 counterexample: for a ticker where every sub-report is absent, the
mapping under the ticker key has 17 sub-report keys, not 16 as the claim
states. -/
theorem c8_key_count_cex :
    ((get_analysis_data_as_json "T" allAbsentAnalysis).objEntries.map
      (fun p => p.2.objKeys.length)) = [17] ∧ (17 : Nat) ≠ 16 :=
  ⟨rfl, by decide⟩

/-- C8 amended: for a ticker where every analysis sub-report is absent,
the bundle maps the ticker to a mapping with each of the *17* sub-report
keys (in source order, `"insider-purchases"` spelled with a hyphen), each
bound to its fixed `"No … data available"` string from the source (with
its `"insider roast holders"` wording), no key bound to `None`, no key
omitted. -/
theorem c8_all_absent_messages (tk : String) :
    get_analysis_data_as_json tk allAbsentAnalysis = .obj [(tk, .obj [
      ("earnings_estimate", .strJ "No earnings estimate data available"),
      ("revenue_estimate", .strJ "No revenue estimate data available"),
      ("earnings_history", .strJ "No earnings history data available"),
      ("eps_trend", .strJ "No EPS trend data available"),
      ("eps_revisions", .strJ "No EPS revisions data available"),
      ("growth_estimates", .strJ "No growth estimate data available"),
      ("recommendations", .strJ "No recommendations data available"),
      ("recommendations_summary", .strJ "No recommendations summary data available"),
      ("upgrades_downgrades", .strJ "No upgrades/downgrades data available"),
      ("sustainability", .strJ "No sustainability data available"),
      ("analyst_price_targets", .strJ "No analyst price targets data available"),
      ("insider-purchases", .strJ "No insider purchases data available"),
      ("insider_transactions", .strJ "No insider transactions data available"),
      ("insider_roster_holders", .strJ "No insider roast holders data available"),
      ("major_holders", .strJ "No major holders data available"),
      ("institutional_holders", .strJ "No institutional holders data available"),
      ("mutualfund_holders", .strJ "No mutual fund holders data available")])] := rfl

/-- C9: in a successfully built analysis bundle, every sub-report entry is
either the absent-report message string or an object whose values are all
strings - never a nested mapping of individually normalized scalars -
because each per-key value of a present sub-report is
`convert_timestamp_to_string` of the *entire* inner value, and that helper
returns `str(x)` (one string) for any non-datetime argument, including a
whole inner dict. -/
theorem c9_present_values_are_strings (d : TickerAnalysis) (ad : Json)
    (h : build_analysis_data d = .ok ad) :
    (∀ p ∈ ad.objEntries,
      (∃ s, p.2 = Json.strJ s) ∨
      (∃ kvs, p.2 = Json.obj kvs ∧ ∀ q ∈ kvs, ∃ s, q.2 = Json.strJ s)) ∧
    (∀ kvs2 : List (Key × Scalar),
      convert_timestamp_to_string (.cdict kvs2) = py_str_cell (.cdict kvs2)) ∧
    (∀ (t : SubTable) (msg : String),
      sub_entry (some t) msg
        = .obj (t.map (fun p => (py_str_key p.1, .strJ (convert_timestamp_to_string p.2))))) := by
  refine ⟨?_, fun _ => rfl, fun _ _ => rfl⟩
  unfold build_analysis_data at h
  obtain ⟨v1, e1, h⟩ := except_bind_ok _ _ _ h
  obtain ⟨v2, e2, h⟩ := except_bind_ok _ _ _ h
  obtain ⟨v3, e3, h⟩ := except_bind_ok _ _ _ h
  obtain ⟨v4, e4, h⟩ := except_bind_ok _ _ _ h
  obtain ⟨v5, e5, h⟩ := except_bind_ok _ _ _ h
  obtain ⟨v6, e6, h⟩ := except_bind_ok _ _ _ h
  obtain ⟨v7, e7, h⟩ := except_bind_ok _ _ _ h
  obtain ⟨v8, e8, h⟩ := except_bind_ok _ _ _ h
  obtain ⟨v9, e9, h⟩ := except_bind_ok _ _ _ h
  obtain ⟨v10, e10, h⟩ := except_bind_ok _ _ _ h
  obtain ⟨v11, e11, h⟩ := except_bind_ok _ _ _ h
  obtain ⟨v12, e12, h⟩ := except_bind_ok _ _ _ h
  obtain ⟨v13, e13, h⟩ := except_bind_ok _ _ _ h
  obtain ⟨v14, e14, h⟩ := except_bind_ok _ _ _ h
  obtain ⟨v15, e15, h⟩ := except_bind_ok _ _ _ h
  obtain ⟨v16, e16, h⟩ := except_bind_ok _ _ _ h
  obtain ⟨v17, e17, h⟩ := except_bind_ok _ _ _ h
  injection h with h2
  subst h2
  intro p hp
  simp only [assemble_analysis, Json.objEntries, List.mem_cons,
    List.not_mem_nil, or_false] at hp
  rcases hp with rfl | rfl | rfl | rfl | rfl | rfl | rfl | rfl | rfl | rfl | rfl | rfl |
    rfl | rfl | rfl | rfl | rfl <;>
    exact sub_entry_values _ _

/-- C9 witness: a bundle with one present sub-report; its single entry is
the `str` rendering of the whole inner dict. -/
theorem c9_witness :
    (∀ p ∈ (assemble_analysis (some sampleSubTable) none none none none none none none
        none none none none none none none none none).objEntries,
      (∃ s, p.2 = Json.strJ s) ∨
      (∃ kvs, p.2 = Json.obj kvs ∧ ∀ q ∈ kvs, ∃ s, q.2 = Json.strJ s)) ∧
    (∀ kvs2 : List (Key × Scalar),
      convert_timestamp_to_string (.cdict kvs2) = py_str_cell (.cdict kvs2)) ∧
    (∀ (t : SubTable) (msg : String),
      sub_entry (some t) msg
        = .obj (t.map (fun p => (py_str_key p.1, .strJ (convert_timestamp_to_string p.2))))) :=
  c9_present_values_are_strings onePresentAnalysis _ rfl

/-- C10: the calendar and news normalizations return different shapes on
their two branches - the absent branch yields the raw `json.dumps` text (a
Python string), the present branch yields the `json.loads` result (a
parsed structure) - so no single output type covers both outcomes. -/
theorem c10_two_result_shapes (c n : PyData) :
    (get_cal_as_json none).isText = true ∧
    (get_cal_as_json (some c)).isText = false ∧
    get_cal_as_json (some c) = .parsed (encodeDE c) ∧
    (get_news_as_json none).isText = true ∧
    (get_news_as_json (some n)).isText = false ∧
    get_news_as_json (some n) = .parsed (encodeDE n) :=
  ⟨rfl, rfl, rfl, rfl, rfl, rfl⟩
